import Mathlib

/-!
Shallow embedding of the USART configuration engine of the Rustduino
repository (file src/atmega2560p/com/usart_initialize.rs) together with
proofs of the testable properties stated for it.

Modelling conventions:
* Each 8-bit hardware register is carried as a natural number field of an
  explicit machine state; volatile reads/writes become reads/updates of
  those fields.
* The source methods obtain the unit number from the structure address via
  get_num; here every method that needs it takes the unit number as an
  explicit argument.
* bit_field set_bit(k, b) becomes setBit below (set via bitwise or, clear
  via Nat.ldiff); set_bits(0..8, v) stores v mod 256 and set_bits(0..4, v)
  replaces the low nibble, leaving the high nibble intact.
* The constant f_osc = 1.0000 (MHz) times multiply = 1000000 denotes
  exactly 1_000_000 Hz; the divisor expression ((f_osc*multiply)/(m*baud))-1
  is carried out in exact integer arithmetic (for 0 < baud the f64
  computation of the source realises the same floor) and the conversion of
  the result into the unsigned register value saturates at 0, as a Rust
  float-to-integer cast does.
* The global-interrupt controller (hal/interrupts.rs, not part of the
  sources at hand) is modelled from the spec as a global flag, and the
  machine additionally counts the acquire/release calls.
-/

namespace Rustduino

/-- Position of the clock mode adjuster (xck) bit, constant usart0_xck. -/
def usart0_xck : Nat := 2
/-- Position of the clock mode adjuster (xck) bit, constant usart1_xck. -/
def usart1_xck : Nat := 5
/-- Position of the clock mode adjuster (xck) bit, constant usart2_xck. -/
def usart2_xck : Nat := 2
/-- Position of the clock mode adjuster (xck) bit, constant usart3_xck. -/
def usart3_xck : Nat := 2

/-- System clock oscillator frequency in Hz: f_osc (1.0000 MHz) times multiply (1000000). -/
def f_osc_hz : Int := 1000000

/-- Selection of which USART is to be used (enum UsartNum). -/
inductive UsartNum where
  | usart0
  | usart1
  | usart2
  | usart3
deriving DecidableEq, Repr

/-- Selection of synchronous or asynchronous modes for USART (enum UsartModes). -/
inductive UsartModes where
  | norm_async
  | dou_async
  | master_sync
  | slave_sync
deriving DecidableEq, Repr

/-- Selection of the parity mode for USART (enum UsartParity). -/
inductive UsartParity where
  | no
  | even
  | odd
deriving DecidableEq, Repr

/-- Amount of data bits transferred through USART (enum UsartDataSize). -/
inductive UsartDataSize where
  | five
  | six
  | seven
  | eight
  | nine
deriving DecidableEq, Repr

/-- Selection of number of stop bits for USART data (enum UsartStop). -/
inductive UsartStop where
  | one
  | two
deriving DecidableEq, Repr

/-- Selection of the clock polarity mode (enum UsartPolarity). -/
inductive UsartPolarity where
  | output_rise
  | input_rise
deriving DecidableEq, Repr

/--
Machine state touched by the engine: the six USART registers of struct
Usart (ucsra, ucsrb, ucsrc, ubrrl, ubrrh, udr), the data-direction register
ddr of the port holding the unit's xck pin, the two power-reduction
registers prr0/prr1, the global interrupt flag, and counters of the
interrupt-guard acquire (disable) and release (enable) calls.
-/
structure Machine where
  ucsra : Nat
  ucsrb : Nat
  ucsrc : Nat
  ubrrl : Nat
  ubrrh : Nat
  udr   : Nat
  ddr   : Nat
  prr0  : Nat
  prr1  : Nat
  intrOn : Bool
  nDisable : Nat
  nEnable  : Nat
deriving DecidableEq, Repr

/-- bit_field set_bit: set (b = true, bitwise or) or clear (b = false, Nat.ldiff)
bit k of x, leaving every other bit unchanged. -/
def setBit (x : Nat) (k : Nat) (b : Bool) : Nat :=
  if b then x ||| (1 <<< k) else Nat.ldiff x (1 <<< k)

/-- Usart::get_xck: index of the xck bit in the port, per unit. -/
def get_xck : UsartNum → Nat
  | .usart0 => usart0_xck
  | .usart1 => usart1_xck
  | .usart2 => usart2_xck
  | .usart3 => usart3_xck

/-- Modelled from the spec: Usart::disable calls GlobalInterrupts::disable of
hal/interrupts.rs (not among the sources), which clears the global interrupt
mask. The model also counts the acquire. -/
def disable (s : Machine) : Machine :=
  { s with intrOn := false, nDisable := s.nDisable + 1 }

/-- Modelled from the spec: Usart::enable calls GlobalInterrupts::enable of
hal/interrupts.rs (not among the sources), which sets the global interrupt
mask. The model also counts the release. -/
def enable (s : Machine) : Machine :=
  { s with intrOn := true, nEnable := s.nEnable + 1 }

/-- Usart::set_power: clear the unit's bit in the power reduction register
(prr0 bit 1 for usart0; prr1 bits 0, 1, 2 for usart1, usart2, usart3). -/
def set_power (num : UsartNum) (s : Machine) : Machine :=
  match num with
  | .usart0 => { s with prr0 := Nat.ldiff s.prr0 (1 <<< 1) }
  | .usart1 => { s with prr1 := Nat.ldiff s.prr1 1 }
  | .usart2 => { s with prr1 := Nat.ldiff s.prr1 (1 <<< 1) }
  | .usart3 => { s with prr1 := Nat.ldiff s.prr1 (1 <<< 2) }

/-- Usart::get_mode: false for asynchronous (ucsrc bit 6 clear), true for
synchronous. -/
def get_mode (s : Machine) : Bool :=
  (s.ucsrc &&& (1 <<< 6)) != 0

/-- Usart::set_polarity: in asynchronous mode clear ucsrc bit 0 regardless of
the requested polarity; in synchronous mode write the requested polarity. -/
def set_polarity (mode : UsartPolarity) (s : Machine) : Machine :=
  if get_mode s = false then
    { s with ucsrc := setBit s.ucsrc 0 false }
  else
    match mode with
    | .output_rise => { s with ucsrc := setBit s.ucsrc 0 false }
    | .input_rise  => { s with ucsrc := setBit s.ucsrc 0 true }

/-- Usart::mode_select: first match sets the clock-source bits (ucsrc bits 6,7;
for synchronous modes also forces the double-speed bit ucsra bit 1 off), the
second match sets the double-speed bit for the asynchronous modes and the xck
pin direction (ddr) for the synchronous ones. -/
def mode_select (num : UsartNum) (mode : UsartModes) (s : Machine) : Machine :=
  let s1 :=
    match mode with
    | .norm_async | .dou_async =>
        { s with ucsrc := setBit (setBit s.ucsrc 6 false) 7 false }
    | .master_sync | .slave_sync =>
        let t := { s with ucsrc := setBit (setBit s.ucsrc 6 true) 7 false }
        { t with ucsra := setBit t.ucsra 1 false }
  match mode with
  | .norm_async  => { s1 with ucsra := setBit s1.ucsra 1 false }
  | .dou_async   => { s1 with ucsra := setBit s1.ucsra 1 true }
  | .master_sync => { s1 with ddr := s1.ddr ||| (1 <<< get_xck num) }
  | .slave_sync  => { s1 with ddr := Nat.ldiff s1.ddr (1 <<< get_xck num) }

/-- Usart::check_ongoing: true when no transfer is in flight, i.e. ucsra bit 6
(transmit complete) is set and ucsra bit 7 (receive in progress) is clear. -/
def check_ongoing (s : Machine) : Bool :=
  s.ucsra.testBit 6 && !(s.ucsra.testBit 7)

/-- Divisor expression of Usart::set_clock: ((f_osc*multiply)/(m*baud))-1. -/
def ubrrOf (m : Int) (baud : Int) : Int :=
  f_osc_hz / (m * baud) - 1

/-- Register writes of Usart::set_clock: ubrrl.set_bits(0..8, ubrr) and
ubrrh.set_bits(0..4, ubrr >> 8). -/
def writeUbrr (s : Machine) (u : Nat) : Machine :=
  { s with ubrrl := u % 256
         , ubrrh := (s.ubrrh / 16) * 16 + (u >>> 8) % 16 }

/-- Usart::set_clock: program the baud-rate registers with the divisor for the
mode's multiplier (16 normal async, 8 double-speed async, 2 master sync); the
slave-synchronous arm is unreachable!() in the source, modelled as none. -/
def set_clock (baud : Int) (mode : UsartModes) (s : Machine) : Option Machine :=
  match mode with
  | .norm_async  => some (writeUbrr s (ubrrOf 16 baud).toNat)
  | .dou_async   => some (writeUbrr s (ubrrOf 8 baud).toNat)
  | .master_sync => some (writeUbrr s (ubrrOf 2 baud).toNat)
  | .slave_sync  => none

/-- Usart::set_size: three matches writing ucsrb bit 2, ucsrc bit 2 and
ucsrc bit 1 from the data size. -/
def set_size (size : UsartDataSize) (s : Machine) : Machine :=
  let s1 :=
    match size with
    | .five | .six | .seven | .eight => { s with ucsrb := setBit s.ucsrb 2 false }
    | .nine => { s with ucsrb := setBit s.ucsrb 2 true }
  let s2 :=
    match size with
    | .five | .six => { s1 with ucsrc := setBit s1.ucsrc 2 false }
    | .nine | .seven | .eight => { s1 with ucsrc := setBit s1.ucsrc 2 true }
  match size with
  | .five | .seven => { s2 with ucsrc := setBit s2.ucsrc 1 false }
  | .nine | .six | .eight => { s2 with ucsrc := setBit s2.ucsrc 1 true }

/-- Usart::set_parity: write ucsrc bits 4 and 5 from the parity mode. -/
def set_parity (parity : UsartParity) (s : Machine) : Machine :=
  match parity with
  | .no   => { s with ucsrc := setBit (setBit s.ucsrc 4 false) 5 false }
  | .even => { s with ucsrc := setBit (setBit s.ucsrc 4 false) 5 true }
  | .odd  => { s with ucsrc := setBit (setBit s.ucsrc 4 true) 5 true }

/-- Usart::set_stop: write ucsrc bit 3 from the stop-bit count. -/
def set_stop (stop : UsartStop) (s : Machine) : Machine :=
  match stop with
  | .one => { s with ucsrc := setBit s.ucsrc 3 false }
  | .two => { s with ucsrc := setBit s.ucsrc 3 true }

/-- Usart::set_frame: set_size, then set_parity, then set_stop. -/
def set_frame (stop : UsartStop) (size : UsartDataSize) (parity : UsartParity)
    (s : Machine) : Machine :=
  set_stop stop (set_parity parity (set_size size s))

/-- Usart::initialize: busy-wait on check_ongoing (modelled as none when the
wait would never end, since nothing changes the registers meanwhile), then
disable interrupts, set power, select the mode, program the clock for every
mode but slave_sync, set the frame and re-enable interrupts. -/
def initUsart (num : UsartNum) (mode : UsartModes) (baud : Int)
    (stop : UsartStop) (size : UsartDataSize) (parity : UsartParity)
    (s : Machine) : Option Machine :=
  if check_ongoing s then
    let s1 := disable s
    let s2 := set_power num s1
    let s3 := mode_select num mode s2
    let s4? :=
      match mode with
      | .slave_sync => some s3
      | _ => set_clock baud mode s3
    s4?.map (fun s4 => enable (set_frame stop size parity s4))
  else
    none

/-- Divisor multiplier of each mode, as read off the arms of set_clock:
16 for normal asynchronous, 8 for double-speed asynchronous, 2 for master
synchronous (slave synchronous programs no divisor; the value 0 is never
used under the hypotheses of the theorems below). -/
def multiplier : UsartModes → Int
  | .norm_async  => 16
  | .dou_async   => 8
  | .master_sync => 2
  | .slave_sync  => 0

/-- A quiescent starting machine state: transmit complete (ucsra bit 6 set),
no receive in progress (bit 7 clear), interrupts on, power-reduction bits for
the USARTs set. -/
def s0 : Machine :=
  { ucsra := 64, ucsrb := 0, ucsrc := 0, ubrrl := 0, ubrrh := 0, udr := 0
  , ddr := 0, prr0 := 2, prr1 := 7, intrOn := true, nDisable := 0, nEnable := 0 }

/-- A machine state with an ongoing transfer (ucsra bit 7 set). -/
def sBusy : Machine :=
  { s0 with ucsra := 192 }

/-- A quiescent machine state entered with global interrupts disabled. -/
def sDis : Machine :=
  { s0 with intrOn := false }

/-- Concrete result state of a normal-asynchronous run, used by witnesses. -/
def resNorm : Machine :=
  (initUsart UsartNum.usart0 UsartModes.norm_async 9600 UsartStop.one
    UsartDataSize.eight UsartParity.no s0).getD s0

/-- Concrete result state of a slave-synchronous run, used by witnesses. -/
def resSlave : Machine :=
  (initUsart UsartNum.usart1 UsartModes.slave_sync 9600 UsartStop.two
    UsartDataSize.nine UsartParity.even s0).getD s0

/-! Helper lemmas about the single-bit register writes. -/

theorem one_shiftLeft_eq (k : Nat) : (1 <<< k) = 2 ^ k := by
  simp [Nat.shiftLeft_eq]

/-- Bit k of setBit x k b is b. -/
theorem testBit_setBit_self (x k : Nat) (b : Bool) :
    (setBit x k b).testBit k = b := by
  cases b <;>
    simp [setBit, one_shiftLeft_eq, Nat.testBit_lor, Nat.testBit_ldiff,
      Nat.testBit_two_pow]

/-- Bits other than k are unchanged by setBit x k b. -/
theorem testBit_setBit_ne (x k j : Nat) (b : Bool) (h : j ≠ k) :
    (setBit x k b).testBit j = x.testBit j := by
  cases b <;>
    simp [setBit, one_shiftLeft_eq, Nat.testBit_lor, Nat.testBit_ldiff,
      Nat.testBit_two_pow, (Ne.symm h)]

/-- Clearing a bit twice is the same as clearing it once. -/
theorem ldiff_ldiff_self (x m : Nat) :
    Nat.ldiff (Nat.ldiff x m) m = Nat.ldiff x m := by
  refine Nat.eq_of_testBit_eq fun i => ?_
  simp [Nat.testBit_ldiff]

/-! Field-preservation lemmas: each configuration step touches only the
registers it is about. They are stated per field so later proofs can use
them as rewrite rules. -/

/-- set_frame only writes ucsrb and ucsrc: ubrrl is untouched. -/
@[simp]
theorem set_frame_ubrrl (stop : UsartStop) (size : UsartDataSize)
    (parity : UsartParity) (s : Machine) :
    (set_frame stop size parity s).ubrrl = s.ubrrl := by
  cases stop <;> cases size <;> cases parity <;>
    simp [set_frame, set_stop, set_parity, set_size]

/-- set_frame only writes ucsrb and ucsrc: ubrrh is untouched. -/
@[simp]
theorem set_frame_ubrrh (stop : UsartStop) (size : UsartDataSize)
    (parity : UsartParity) (s : Machine) :
    (set_frame stop size parity s).ubrrh = s.ubrrh := by
  cases stop <;> cases size <;> cases parity <;>
    simp [set_frame, set_stop, set_parity, set_size]

/-- set_frame only writes ucsrb and ucsrc: udr is untouched. -/
@[simp]
theorem set_frame_udr (stop : UsartStop) (size : UsartDataSize)
    (parity : UsartParity) (s : Machine) :
    (set_frame stop size parity s).udr = s.udr := by
  cases stop <;> cases size <;> cases parity <;>
    simp [set_frame, set_stop, set_parity, set_size]

/-- set_frame only writes ucsrb and ucsrc: ddr is untouched. -/
@[simp]
theorem set_frame_ddr (stop : UsartStop) (size : UsartDataSize)
    (parity : UsartParity) (s : Machine) :
    (set_frame stop size parity s).ddr = s.ddr := by
  cases stop <;> cases size <;> cases parity <;>
    simp [set_frame, set_stop, set_parity, set_size]

/-- set_frame does not call the interrupt guard. -/
@[simp]
theorem set_frame_nDisable (stop : UsartStop) (size : UsartDataSize)
    (parity : UsartParity) (s : Machine) :
    (set_frame stop size parity s).nDisable = s.nDisable := by
  cases stop <;> cases size <;> cases parity <;>
    simp [set_frame, set_stop, set_parity, set_size]

/-- set_frame does not call the interrupt guard. -/
@[simp]
theorem set_frame_nEnable (stop : UsartStop) (size : UsartDataSize)
    (parity : UsartParity) (s : Machine) :
    (set_frame stop size parity s).nEnable = s.nEnable := by
  cases stop <;> cases size <;> cases parity <;>
    simp [set_frame, set_stop, set_parity, set_size]

/-- mode_select only writes ucsra, ucsrc and ddr: ubrrl is untouched. -/
@[simp]
theorem mode_select_ubrrl (num : UsartNum) (mode : UsartModes) (s : Machine) :
    (mode_select num mode s).ubrrl = s.ubrrl := by
  cases mode <;> simp [mode_select]

/-- mode_select only writes ucsra, ucsrc and ddr: ubrrh is untouched. -/
@[simp]
theorem mode_select_ubrrh (num : UsartNum) (mode : UsartModes) (s : Machine) :
    (mode_select num mode s).ubrrh = s.ubrrh := by
  cases mode <;> simp [mode_select]

/-- mode_select only writes ucsra, ucsrc and ddr: udr is untouched. -/
@[simp]
theorem mode_select_udr (num : UsartNum) (mode : UsartModes) (s : Machine) :
    (mode_select num mode s).udr = s.udr := by
  cases mode <;> simp [mode_select]

/-- mode_select does not call the interrupt guard. -/
@[simp]
theorem mode_select_nDisable (num : UsartNum) (mode : UsartModes) (s : Machine) :
    (mode_select num mode s).nDisable = s.nDisable := by
  cases mode <;> simp [mode_select]

/-- mode_select does not call the interrupt guard. -/
@[simp]
theorem mode_select_nEnable (num : UsartNum) (mode : UsartModes) (s : Machine) :
    (mode_select num mode s).nEnable = s.nEnable := by
  cases mode <;> simp [mode_select]

/-- set_power only writes the power-reduction registers: ubrrl untouched. -/
@[simp]
theorem set_power_ubrrl (num : UsartNum) (s : Machine) :
    (set_power num s).ubrrl = s.ubrrl := by
  cases num <;> simp [set_power]

/-- set_power only writes the power-reduction registers: ubrrh untouched. -/
@[simp]
theorem set_power_ubrrh (num : UsartNum) (s : Machine) :
    (set_power num s).ubrrh = s.ubrrh := by
  cases num <;> simp [set_power]

/-- set_power only writes the power-reduction registers: udr untouched. -/
@[simp]
theorem set_power_udr (num : UsartNum) (s : Machine) :
    (set_power num s).udr = s.udr := by
  cases num <;> simp [set_power]

/-- set_power only writes the power-reduction registers: ddr untouched. -/
@[simp]
theorem set_power_ddr (num : UsartNum) (s : Machine) :
    (set_power num s).ddr = s.ddr := by
  cases num <;> simp [set_power]

/-- set_power does not call the interrupt guard. -/
@[simp]
theorem set_power_nDisable (num : UsartNum) (s : Machine) :
    (set_power num s).nDisable = s.nDisable := by
  cases num <;> simp [set_power]

/-- set_power does not call the interrupt guard. -/
@[simp]
theorem set_power_nEnable (num : UsartNum) (s : Machine) :
    (set_power num s).nEnable = s.nEnable := by
  cases num <;> simp [set_power]

/-- mode_select in slave-synchronous mode clears the xck data-direction bit. -/
theorem mode_select_slave_ddr (num : UsartNum) (s : Machine) :
    (mode_select num UsartModes.slave_sync s).ddr.testBit (get_xck num) = false := by
  simp [mode_select, one_shiftLeft_eq, Nat.testBit_ldiff, Nat.testBit_two_pow]

/-- C7: after mode_select, ucsrc bit 6 (clock source) is set exactly for the
two synchronous modes, ucsra bit 1 (double speed) is set exactly for
double-speed asynchronous mode (forced off for both synchronous modes), and
for master-sync the xck data-direction bit is driven to output. -/
theorem mode_select_bits (num : UsartNum) (mode : UsartModes) (s : Machine) :
    ((mode_select num mode s).ucsrc.testBit 6 = true ↔
      (mode = UsartModes.master_sync ∨ mode = UsartModes.slave_sync)) ∧
    ((mode_select num mode s).ucsra.testBit 1 = true ↔ mode = UsartModes.dou_async) ∧
    (mode = UsartModes.master_sync →
      (mode_select num mode s).ddr.testBit (get_xck num) = true) := by
  cases mode <;>
    simp [mode_select, testBit_setBit_self, testBit_setBit_ne,
      one_shiftLeft_eq, Nat.testBit_lor, Nat.testBit_two_pow]

/-- C8: the Power Gate is idempotent — running set_power twice leaves the
machine exactly as running it once — and set_power touches nothing but the
power-reduction registers. -/
theorem set_power_idempotent (num : UsartNum) (s : Machine) :
    set_power num (set_power num s) = set_power num s ∧
    (set_power num s).ucsra = s.ucsra ∧
    (set_power num s).ucsrb = s.ucsrb ∧
    (set_power num s).ucsrc = s.ucsrc ∧
    (set_power num s).ubrrl = s.ubrrl ∧
    (set_power num s).ubrrh = s.ubrrh ∧
    (set_power num s).udr = s.udr ∧
    (set_power num s).ddr = s.ddr ∧
    (set_power num s).intrOn = s.intrOn := by
  cases num <;> simp [set_power, ldiff_ldiff_self]

/-- C9: with the unit in asynchronous mode (ucsrc bit 6 clear), set_polarity
clears the clock-polarity bit (ucsrc bit 0) whatever polarity is requested,
and the requested polarity does not influence the result at all. -/
theorem set_polarity_async (p : UsartPolarity) (s : Machine)
    (h : s.ucsrc.testBit 6 = false) :
    ((set_polarity p s).ucsrc.testBit 0 = false) ∧
    set_polarity p s = set_polarity UsartPolarity.output_rise s := by
  have hand : s.ucsrc &&& (1 <<< 6) = 0 := by
    rw [one_shiftLeft_eq]
    refine Nat.eq_of_testBit_eq fun i => ?_
    rw [Nat.testBit_land, Nat.testBit_two_pow]
    rcases eq_or_ne i 6 with rfl | hi
    · simp [h]
    · simp [Ne.symm hi]
  have hm : get_mode s = false := by
    unfold get_mode
    rw [hand]
    rfl
  have h1 : set_polarity p s = { s with ucsrc := setBit s.ucsrc 0 false } := by
    simp [set_polarity, hm]
  have h2 : set_polarity UsartPolarity.output_rise s =
      { s with ucsrc := setBit s.ucsrc 0 false } := by
    simp [set_polarity, hm]
  exact ⟨by rw [h1]; exact testBit_setBit_self s.ucsrc 0 false, h1.trans h2.symm⟩

/-- Witness for C9 at a concrete state. -/
theorem set_polarity_async_witness :
    ((set_polarity UsartPolarity.input_rise s0).ucsrc.testBit 0 = false) ∧
    set_polarity UsartPolarity.input_rise s0 =
      set_polarity UsartPolarity.output_rise s0 :=
  set_polarity_async UsartPolarity.input_rise s0 (by decide)

/-- Witness for C7 at a concrete input (master synchronous mode on usart0). -/
theorem mode_select_bits_witness :
    ((mode_select UsartNum.usart0 UsartModes.master_sync s0).ucsrc.testBit 6 = true ↔
      (UsartModes.master_sync = UsartModes.master_sync ∨
        UsartModes.master_sync = UsartModes.slave_sync)) ∧
    ((mode_select UsartNum.usart0 UsartModes.master_sync s0).ucsra.testBit 1 = true ↔
      UsartModes.master_sync = UsartModes.dou_async) ∧
    (UsartModes.master_sync = UsartModes.master_sync →
      (mode_select UsartNum.usart0 UsartModes.master_sync s0).ddr.testBit
        (get_xck UsartNum.usart0) = true) :=
  mode_select_bits UsartNum.usart0 UsartModes.master_sync s0

/-- C3: for all 30 combinations of data size, parity and stop bits, the frame
bit fields written by set_frame match the reference table: ucsrb bit 2 is set
iff the size is nine; ucsrc bit 2 iff the size is seven, eight or nine; ucsrc
bit 1 iff the size is six, eight or nine; ucsrc bit 5 iff parity is even or
odd, ucsrc bit 4 iff parity is odd; ucsrc bit 3 iff two stop bits. -/
theorem set_frame_table (stop : UsartStop) (size : UsartDataSize)
    (parity : UsartParity) (s : Machine) :
    ((set_frame stop size parity s).ucsrb.testBit 2 = true ↔
      size = UsartDataSize.nine) ∧
    ((set_frame stop size parity s).ucsrc.testBit 2 = true ↔
      (size = UsartDataSize.seven ∨ size = UsartDataSize.eight ∨
        size = UsartDataSize.nine)) ∧
    ((set_frame stop size parity s).ucsrc.testBit 1 = true ↔
      (size = UsartDataSize.six ∨ size = UsartDataSize.eight ∨
        size = UsartDataSize.nine)) ∧
    ((set_frame stop size parity s).ucsrc.testBit 5 = true ↔
      (parity = UsartParity.even ∨ parity = UsartParity.odd)) ∧
    ((set_frame stop size parity s).ucsrc.testBit 4 = true ↔
      parity = UsartParity.odd) ∧
    ((set_frame stop size parity s).ucsrc.testBit 3 = true ↔
      stop = UsartStop.two) := by
  cases stop <;> cases size <;> cases parity <;>
    simp [set_frame, set_stop, set_parity, set_size,
      testBit_setBit_self, testBit_setBit_ne]

/-- C5: the initialization proceeds past the quiescence busy-wait only when
the transmit-complete flag (ucsra bit 6) is set and the receive-in-progress
flag (ucsra bit 7) is clear; whenever initUsart returns a state, the starting
status register was idle. -/
theorem quiescence_gate (num : UsartNum) (mode : UsartModes) (baud : Int)
    (stop : UsartStop) (size : UsartDataSize) (parity : UsartParity)
    (s s' : Machine)
    (h : initUsart num mode baud stop size parity s = some s') :
    s.ucsra.testBit 6 = true ∧ s.ucsra.testBit 7 = false := by
  by_cases hc : check_ongoing s = true
  · have := hc
    unfold check_ongoing at this
    simp at this
    exact this
  · rw [initUsart, if_neg hc] at h
    exact absurd h (by simp)

/-- Witness for C5: the quiescence conclusion at a concrete successful run. -/
theorem quiescence_gate_witness :
    s0.ucsra.testBit 6 = true ∧ s0.ucsra.testBit 7 = false :=
  quiescence_gate UsartNum.usart0 UsartModes.norm_async 9600 UsartStop.one
    UsartDataSize.eight UsartParity.no s0 resNorm (by rfl)

/-- Shift by eight is division by 256. -/
theorem shiftRight8_eq (u : Nat) : u >>> 8 = u / 256 := by
  rw [Nat.shiftRight_eq_div_pow]

/-- C4 counterexample: the claimed unconditional restoration of the global
interrupt mask is false — a run of the initialization entered with interrupts
disabled returns with them enabled, because the guard's release is a plain
global-interrupt-set (the source passes a fresh GlobalInterrupts::new(), not
the prior state, to enable). -/
theorem guard_not_restored :
    (initUsart UsartNum.usart0 UsartModes.norm_async 9600 UsartStop.one
      UsartDataSize.eight UsartParity.no sDis).map Machine.intrOn = some true ∧
    sDis.intrOn = false := by
  decide

/-- C4 (amended): every run of the initialization that returns performed
exactly one interrupt-guard acquire and one release, leaves the global
interrupt mask enabled — so interrupts never remain disabled afterwards — and
thereby restores the mask to its prior state whenever it was enabled on
entry. -/
theorem guard_balanced (num : UsartNum) (mode : UsartModes) (baud : Int)
    (stop : UsartStop) (size : UsartDataSize) (parity : UsartParity)
    (s s' : Machine)
    (h : initUsart num mode baud stop size parity s = some s') :
    s'.nDisable = s.nDisable + 1 ∧ s'.nEnable = s.nEnable + 1 ∧
    s'.intrOn = true ∧ (s.intrOn = true → s'.intrOn = s.intrOn) := by
  by_cases hc : check_ongoing s = true
  · rw [initUsart, if_pos hc] at h
    cases mode <;> simp [set_clock] at h <;> subst h <;>
      simp [enable, writeUbrr, disable]
  · rw [initUsart, if_neg hc] at h
    exact absurd h (by simp)

/-- Witness for C4 at a concrete successful slave-synchronous run. -/
theorem guard_balanced_witness :
    resSlave.nDisable = s0.nDisable + 1 ∧ resSlave.nEnable = s0.nEnable + 1 ∧
    resSlave.intrOn = true ∧ (s0.intrOn = true → resSlave.intrOn = s0.intrOn) :=
  guard_balanced UsartNum.usart1 UsartModes.slave_sync 9600 UsartStop.two
    UsartDataSize.nine UsartParity.even s0 resSlave (by rfl)

/-- C6: in slave-synchronous mode the initialization succeeds, leaves both
divisor registers untouched and configures the xck clock line as an input by
clearing its data-direction bit. -/
theorem slave_sync_init (num : UsartNum) (baud : Int) (stop : UsartStop)
    (size : UsartDataSize) (parity : UsartParity) (s : Machine)
    (hq : check_ongoing s = true) :
    ∃ s', initUsart num UsartModes.slave_sync baud stop size parity s = some s' ∧
      s'.ubrrl = s.ubrrl ∧ s'.ubrrh = s.ubrrh ∧
      s'.ddr.testBit (get_xck num) = false := by
  refine ⟨enable (set_frame stop size parity
    (mode_select num UsartModes.slave_sync (set_power num (disable s)))),
    ?_, ?_, ?_, ?_⟩
  · rw [initUsart, if_pos hq]
    rfl
  · simp [enable, disable]
  · simp [enable, disable]
  · simp only [enable, set_frame_ddr]
    exact mode_select_slave_ddr num _

/-- Witness for C6 at a concrete quiescent state. -/
theorem slave_sync_init_witness :
    ∃ s', initUsart UsartNum.usart1 UsartModes.slave_sync 9600 UsartStop.two
      UsartDataSize.nine UsartParity.even s0 = some s' ∧
      s'.ubrrl = s0.ubrrl ∧ s'.ubrrh = s0.ubrrh ∧
      s'.ddr.testBit (get_xck UsartNum.usart1) = false :=
  slave_sync_init UsartNum.usart1 9600 UsartStop.two UsartDataSize.nine
    UsartParity.even s0 (by decide)

/-- C1: for every mode but slave-sync and every positive baud rate whose
divisor floor(f_osc / (multiplier * baud)) - 1 lies in [0, 4095], the
initialization succeeds, the divisor-low register holds the low 8 bits of the
divisor and the low nibble of the divisor-high register holds bits 8..11. -/
theorem clock_divisor (num : UsartNum) (mode : UsartModes) (baud : Int)
    (stop : UsartStop) (size : UsartDataSize) (parity : UsartParity)
    (s : Machine)
    (hm : mode ≠ UsartModes.slave_sync)
    (hq : check_ongoing s = true)
    (hlo : 0 ≤ ubrrOf (multiplier mode) baud)
    (hhi : ubrrOf (multiplier mode) baud ≤ 4095) :
    ∃ s', initUsart num mode baud stop size parity s = some s' ∧
      s'.ubrrl = (ubrrOf (multiplier mode) baud).toNat % 256 ∧
      s'.ubrrh % 16 = (ubrrOf (multiplier mode) baud).toNat / 256 := by
  cases mode with
  | slave_sync => exact absurd rfl hm
  | norm_async =>
    have hle : (ubrrOf 16 baud).toNat ≤ 4095 := by
      simp only [multiplier] at hhi
      omega
    refine ⟨enable (set_frame stop size parity (writeUbrr
      (mode_select num UsartModes.norm_async (set_power num (disable s)))
      (ubrrOf 16 baud).toNat)), ?_, ?_, ?_⟩
    · rw [initUsart, if_pos hq]
      rfl
    · simp [enable, writeUbrr, multiplier]
    · simp [enable, writeUbrr, multiplier, shiftRight8_eq]
      omega
  | dou_async =>
    have hle : (ubrrOf 8 baud).toNat ≤ 4095 := by
      simp only [multiplier] at hhi
      omega
    refine ⟨enable (set_frame stop size parity (writeUbrr
      (mode_select num UsartModes.dou_async (set_power num (disable s)))
      (ubrrOf 8 baud).toNat)), ?_, ?_, ?_⟩
    · rw [initUsart, if_pos hq]
      rfl
    · simp [enable, writeUbrr, multiplier]
    · simp [enable, writeUbrr, multiplier, shiftRight8_eq]
      omega
  | master_sync =>
    have hle : (ubrrOf 2 baud).toNat ≤ 4095 := by
      simp only [multiplier] at hhi
      omega
    refine ⟨enable (set_frame stop size parity (writeUbrr
      (mode_select num UsartModes.master_sync (set_power num (disable s)))
      (ubrrOf 2 baud).toNat)), ?_, ?_, ?_⟩
    · rw [initUsart, if_pos hq]
      rfl
    · simp [enable, writeUbrr, multiplier]
    · simp [enable, writeUbrr, multiplier, shiftRight8_eq]
      omega

/-- Witness for C1 at the spec's example: normal-async at 1 MHz and 9600 baud
programs divisor 5, so divisor-low is 5 and the divisor-high nibble is 0. -/
theorem clock_divisor_witness :
    (0 : Int) ≤ ubrrOf (multiplier UsartModes.norm_async) 9600 ∧
    ∃ s', initUsart UsartNum.usart0 UsartModes.norm_async 9600 UsartStop.one
      UsartDataSize.eight UsartParity.no s0 = some s' ∧
      s'.ubrrl = 5 ∧ s'.ubrrh % 16 = 0 := by
  refine ⟨by decide, ?_⟩
  obtain ⟨s', h1, h2, h3⟩ := clock_divisor UsartNum.usart0
    UsartModes.norm_async 9600 UsartStop.one UsartDataSize.eight
    UsartParity.no s0 (by decide) (by decide) (by decide) (by decide)
  exact ⟨s', h1, by rw [h2]; rfl, by rw [h3]; rfl⟩

/-- C10: for every mode but slave-sync and every baud rate, set_clock leaves
bits 4..7 of the divisor-high register unchanged and never writes the data
register; the initialization never writes the data register either. -/
theorem clock_low12 (num : UsartNum) (mode : UsartModes) (baud : Int)
    (stop : UsartStop) (size : UsartDataSize) (parity : UsartParity)
    (s : Machine) (hm : mode ≠ UsartModes.slave_sync) :
    (∃ t, set_clock baud mode s = some t ∧ t.ubrrh / 16 = s.ubrrh / 16 ∧
      t.udr = s.udr) ∧
    (∀ s', initUsart num mode baud stop size parity s = some s' →
      s'.udr = s.udr) := by
  constructor
  · cases mode with
    | slave_sync => exact absurd rfl hm
    | norm_async =>
      refine ⟨writeUbrr s (ubrrOf 16 baud).toNat, rfl, ?_, ?_⟩
      · simp [writeUbrr]
        omega
      · simp [writeUbrr]
    | dou_async =>
      refine ⟨writeUbrr s (ubrrOf 8 baud).toNat, rfl, ?_, ?_⟩
      · simp [writeUbrr]
        omega
      · simp [writeUbrr]
    | master_sync =>
      refine ⟨writeUbrr s (ubrrOf 2 baud).toNat, rfl, ?_, ?_⟩
      · simp [writeUbrr]
        omega
      · simp [writeUbrr]
  · intro s' h
    by_cases hc : check_ongoing s = true
    · rw [initUsart, if_pos hc] at h
      cases mode <;> simp [set_clock] at h <;> subst h <;>
        simp [enable, writeUbrr, disable]
    · rw [initUsart, if_neg hc] at h
      exact absurd h (by simp)

/-- Witness for C10 in normal asynchronous mode at the quiescent state. -/
theorem clock_low12_witness :
    (∃ t, set_clock 9600 UsartModes.norm_async s0 = some t ∧
      t.ubrrh / 16 = s0.ubrrh / 16 ∧ t.udr = s0.udr) ∧
    (∀ s', initUsart UsartNum.usart0 UsartModes.norm_async 9600 UsartStop.one
      UsartDataSize.eight UsartParity.no s0 = some s' → s'.udr = s0.udr) :=
  clock_low12 UsartNum.usart0 UsartModes.norm_async 9600 UsartStop.one
    UsartDataSize.eight UsartParity.no s0 (by decide)

/-- C2 (failing input): at baud rate 1 the divisor 62499 exceeds 4095, yet the
code raises no error: the run returns normally and the divisor registers are
written with the truncated low 12 bits (ubrrl = 35, ubrrh nibble = 4), so the
registers are not left unmodified and no UnsupportedDivisor is reported. -/
theorem overflow_divisor_written :
    (4095 : Int) < ubrrOf 16 1 ∧
    (initUsart UsartNum.usart0 UsartModes.norm_async 1 UsartStop.one
      UsartDataSize.eight UsartParity.no s0).map
        (fun t => (t.ubrrl, t.ubrrh, t.udr)) = some (35, 4, 0) ∧
    s0.ubrrl = 0 ∧ s0.ubrrh = 0 := by
  decide

end Rustduino
